import Mathlib

/-!
Verification of the sync-airbnb synchronization core against its source.

This file gives a shallow embedding of the parts of the repository that the
verified statements are about:

* `sync_airbnb/network/http_client.py` — `post_with_retry` and its
  `backoff.on_exception(..., (Exception,), max_tries=5, ...)` retry wrapper;
* `sync_airbnb/utils/airbnb_sync.py` — the horizon-cap check and the rolling
  window/metric polling loop of `AirbnbSync.poll_range_and_flatten`;
* `sync_airbnb/services/insights.py` — the per-listing orchestration loop of
  `run_insights_poller` (fault isolation, auth short-circuit, cookie and
  `last_sync_at` persistence);
* `sync_airbnb/utils/cookie_utils.py` — `parse_cookie_string` and
  `build_cookie_string`;
* `sync_airbnb/flatteners/utils.py` — `get_first_component`;
* `sync_airbnb/network/preflight.py` — `create_preflight_session`
  (absent from the source snapshot; modelled from the spec, see below).

Python strings are embedded as `String` or as `List Char` (for the cookie
functions, whose proofs are character-level); Python `datetime.date` values
are embedded as their proleptic-Gregorian ordinals (`Nat`, the value of
`date.toordinal()`), so `timedelta` arithmetic is ordinal arithmetic and
date comparison is `Nat` comparison.  Network and database effects are
embedded as explicit outcome parameters ("oracles"): a function from the
request position to the outcome the outside world would produce.
-/

namespace SyncAirbnb

/-- The exception values that flow through the embedded code.
`airbnbAuthError` embeds `AirbnbAuthError`, `airbnbRequestError` embeds
`AirbnbRequestError`, `valueError` embeds `ValueError`, `exceptionErr`
embeds a bare `Exception` (raised for 429/5xx), and `otherExc name msg`
embeds any further exception class (e.g. a database error), carrying its
class name. -/
inductive PyExc where
  | airbnbAuthError (msg : String)
  | airbnbRequestError (msg : String)
  | valueError (msg : String)
  | exceptionErr (msg : String)
  | otherExc (name msg : String)
deriving DecidableEq, Repr

/-- `isinstance(e, AirbnbAuthError)` — the check used by the orchestrator's
per-listing handler (`services/insights.py`). -/
def PyExc.isAuthError : PyExc → Bool
  | .airbnbAuthError _ => true
  | _ => false

/-- `type(e).__name__`, as recorded in the orchestrator's error details. -/
def PyExc.typeName : PyExc → String
  | .airbnbAuthError _ => "AirbnbAuthError"
  | .airbnbRequestError _ => "AirbnbRequestError"
  | .valueError _ => "ValueError"
  | .exceptionErr _ => "Exception"
  | .otherExc n _ => n

/-- `str(e)`, as recorded in the orchestrator's error details. -/
def PyExc.message : PyExc → String
  | .airbnbAuthError m => m
  | .airbnbRequestError m => m
  | .valueError m => m
  | .exceptionErr m => m
  | .otherExc _ m => m

/-! ## JSON values

A small model of the Python values that travel through parsed JSON
responses, used by the embedding of `get_first_component` and of the
response-body check in `post_with_retry`. -/

/-- Parsed JSON / Python values: `None`, booleans, integers, strings,
lists, and dicts (as ordered association lists with distinct keys). -/
inductive Json where
  | null
  | boolVal (b : Bool)
  | intVal (n : Int)
  | strVal (s : String)
  | arrVal (xs : List Json)
  | objVal (fields : List (String × Json))

/-- First binding of a key in a dict's field list (Python dict keys are
unique, so this is the dict lookup). -/
def Json.lookupField : List (String × Json) → String → Option Json
  | [], _ => none
  | (k, v) :: rest, key => if k = key then some v else Json.lookupField rest key

/-- `d.get(key, default)`.  Raises `AttributeError` when the receiver is not
a dict (no `.get` attribute), exactly as Python does. -/
def Json.get (j : Json) (key : String) (default : Json) : Except PyExc Json :=
  match j with
  | .objVal fields =>
      match Json.lookupField fields key with
      | some v => .ok v
      | none => .ok default
  | _ => .error (.otherExc "AttributeError" "object has no attribute get")

/-- Python truthiness of a value. -/
def Json.truthy : Json → Bool
  | .null => false
  | .boolVal b => b
  | .intVal n => n ≠ 0
  | .strVal s => s ≠ ""
  | .arrVal xs => !xs.isEmpty
  | .objVal fields => !fields.isEmpty

/-- `x is None`. -/
def Json.isNull : Json → Bool
  | .null => true
  | _ => false

/-- Whether a dict value has a given key (`key in d` for dicts). -/
def Json.hasKey (j : Json) (key : String) : Bool :=
  match j with
  | .objVal fields => (Json.lookupField fields key).isSome
  | _ => false

/-- Substring test on character lists (Python `needle in hay` for strings). -/
def strHasSub (needle : List Char) : List Char → Bool
  | [] => needle.isEmpty
  | c :: rest => needle.isPrefixOf (c :: rest) || strHasSub needle rest

/-- The Python `in` operator applied to a JSON value: key membership for
dicts, element equality for lists, substring test for strings,
`TypeError` for non-containers. -/
def Json.containsStr (j : Json) (needle : String) : Except PyExc Bool :=
  match j with
  | .objVal fields => .ok ((Json.lookupField fields needle).isSome)
  | .arrVal xs =>
      .ok (xs.any fun x => match x with
        | .strVal s => s = needle
        | _ => false)
  | .strVal s => .ok (strHasSub needle.data s.data)
  | _ => .error (.otherExc "TypeError" "argument is not iterable")

/-- `d[key]` — subscription.  `KeyError` for a dict without the key,
`TypeError` for strings/lists (string indices must be integers) and for
non-subscriptable values. -/
def Json.indexStr (j : Json) (key : String) : Except PyExc Json :=
  match j with
  | .objVal fields =>
      match Json.lookupField fields key with
      | some v => .ok v
      | none => .error (.otherExc "KeyError" key)
  | .strVal _ => .error (.otherExc "TypeError" "string indices must be integers")
  | .arrVal _ => .error (.otherExc "TypeError" "list indices must be integers")
  | _ => .error (.otherExc "TypeError" "object is not subscriptable")

/-- `x[0]`.  First element of a list (or `IndexError` when empty), first
character of a string, `KeyError`/`TypeError` otherwise. -/
def Json.indexZero (j : Json) : Except PyExc Json :=
  match j with
  | .arrVal [] => .error (.otherExc "IndexError" "list index out of range")
  | .arrVal (x :: _) => .ok x
  | .strVal s =>
      match s.data with
      | [] => .error (.otherExc "IndexError" "string index out of range")
      | c :: _ => .ok (.strVal (String.mk [c]))
  | .objVal _ => .error (.otherExc "KeyError" "0")
  | _ => .error (.otherExc "TypeError" "object is not subscriptable")

end SyncAirbnb

namespace SyncAirbnb

/-! ## Retrying request client (`network/http_client.py`)

`post_with_retry` is decorated with
`@backoff.on_exception(backoff.expo, (Exception,), max_tries=5, ...)`:
every exception the body raises is retried, up to 5 calls in total, and the
last exception is then re-raised.  The body classifies one HTTP exchange;
we embed one exchange as `postOnce` over the outcome the network produces
for that attempt, and the decorated function as `post_with_retry` over a
per-attempt outcome function.  Timing, logging and Prometheus counters are
side effects with no bearing on the verified statements and are omitted. -/

/-- `RETRYABLE_STATUS_CODES = {500, 502, 503, 504}`. -/
def RETRYABLE_STATUS_CODES : List Nat := [500, 502, 503, 504]

/-- One HTTP response as the client sees it: status code, parsed JSON body
(`none` when `res.json()` raises `ValueError`), raw text, and the
`Retry-After` header when present. -/
structure HttpResponse where
  statusCode : Nat
  jsonBody : Option Json
  text : String
  retryAfter : Option String
deriving Inhabited

/-- What the network does on one attempt: the transport raises
(`curl_requests.post` throws) or a response comes back. -/
inductive NetAttempt where
  | transportError (msg : String)
  | response (r : HttpResponse)

/-- One pass through the body of `post_with_retry`
(`http_client.py` lines 84-141): transport failure → `AirbnbRequestError`;
401/403 → `AirbnbRequestError` with an "Auth error" message; 429 → bare
`Exception` (retryable); 500/502/503/504 → bare `Exception` (retryable);
unparseable JSON → `AirbnbRequestError`; a body that is not a dict with a
top-level `"data"` key → `AirbnbRequestError`; otherwise the parsed body. -/
def postOnce (att : NetAttempt) : Except PyExc Json :=
  match att with
  | .transportError m => .error (.airbnbRequestError ("Request failed: " ++ m))
  | .response res =>
      if res.statusCode = 401 ∨ res.statusCode = 403 then
        .error (.airbnbRequestError
          ("Auth error: " ++ toString res.statusCode ++ " - " ++ res.text))
      else if res.statusCode = 429 then
        .error (.exceptionErr
          ("Rate limit error (429) - Retry-After: " ++
            (res.retryAfter.getD "unknown") ++ "s"))
      else if res.statusCode ∈ RETRYABLE_STATUS_CODES then
        .error (.exceptionErr
          ("Retryable error: " ++ toString res.statusCode ++ " - " ++ res.text))
      else
        match res.jsonBody with
        | none => .error (.airbnbRequestError ("Invalid JSON response: " ++ res.text))
        | some data =>
            if data.hasKey "data" then .ok data
            else .error (.airbnbRequestError "Unexpected response structure")

/-- The retry loop of `backoff.on_exception` with `max_tries` remaining
tries: call the body on attempt `k`; success returns, an exception with no
tries left re-raises, otherwise back off and retry.  Returns the final
result and the number of attempts that were made. -/
def postLoop (attempts : Nat → NetAttempt) : Nat → Nat → Except PyExc Json × Nat
  | k, 0 => (.error (.exceptionErr "backoff: zero tries"), k)
  | k, 1 =>
      match postOnce (attempts k) with
      | .ok d => (.ok d, k + 1)
      | .error e => (.error e, k + 1)
  | k, n + 2 =>
      match postOnce (attempts k) with
      | .ok d => (.ok d, k + 1)
      | .error _ => postLoop attempts (k + 1) (n + 1)

/-- `post_with_retry` as the caller sees it: the body under
`backoff.on_exception(..., max_tries=5)`.  `attempts k` is the network's
behaviour on the `k`-th attempt (0-based). -/
def post_with_retry (attempts : Nat → NetAttempt) : Except PyExc Json × Nat :=
  postLoop attempts 0 5

/-! ## Dates

Python `datetime.date` values are embedded as their
`date.toordinal()` value: days since 0001-01-00 in the proleptic Gregorian
calendar.  `timedelta(days=n)` addition is ordinal addition and date
comparison is ordinal comparison, exactly as in CPython. -/

/-- Gregorian leap year test. -/
def isLeapYear (y : Nat) : Bool := y % 4 = 0 ∧ (y % 100 ≠ 0 ∨ y % 400 = 0)

/-- Days in the months before month `m` (1-based) of a non-leap year. -/
def daysBeforeMonthCommon : Nat → Nat
  | 1 => 0 | 2 => 31 | 3 => 59 | 4 => 90 | 5 => 120 | 6 => 151
  | 7 => 181 | 8 => 212 | 9 => 243 | 10 => 273 | 11 => 304 | 12 => 334
  | _ => 365

/-- `date(y, m, d).toordinal()`. -/
def toOrdinal (y m d : Nat) : Nat :=
  365 * (y - 1) + (y - 1) / 4 - (y - 1) / 100 + (y - 1) / 400 +
    daysBeforeMonthCommon m + (if 2 < m ∧ isLeapYear y then 1 else 0) + d

/-! ## Window chunking (`utils/airbnb_sync.py`, `poll_range_and_flatten`)

The `while current_start <= end_date` loop visits the closed sub-windows
`(current_start, min(current_start + window_size_days - 1, end_date))` and
then restarts from the day after the sub-window's end.  `chunkWindow` is
the list of sub-windows that loop visits, written with explicit fuel
(`end - start + 1` days is enough fuel whenever the window size is at
least one day, which both call sites satisfy: 28 and 7). -/

/-- The sub-window sequence of the polling loop, fuelled. -/
def chunkAux : Nat → Nat → Nat → Nat → List (Nat × Nat)
  | 0, _, _, _ => []
  | fuel + 1, cs, e, size =>
      if cs ≤ e then
        (cs, min (cs + size - 1) e) :: chunkAux fuel (min (cs + size - 1) e + 1) e size
      else []

/-- `chunkWindow(start, end, sizeDays)`: the ordered list of closed
sub-windows the polling loop iterates over. -/
def chunkWindow (s e size : Nat) : List (Nat × Nat) :=
  chunkAux (e + 1 - s) s e size

end SyncAirbnb

namespace SyncAirbnb

/-! ## `AirbnbSync.poll_range_and_flatten` (`utils/airbnb_sync.py`)

The method first enforces the horizon cap
(`MAX_METRIC_OFFSET_DAYS = 182`): when `end_date` exceeds
`scrape_day + timedelta(days=182)` it raises `ValueError` before entering
the polling loop, i.e. before any HTTP request is issued.  Otherwise it
iterates every `(metric_type, group_values)` pair over every rolling
sub-window; each iteration makes one `poll_and_flatten` call, and the
surrounding `try/except Exception` catches *any* exception that call raises
(including `AirbnbAuthError` from the flattener), logs it, and continues
with the next iteration; a successful call appends its flattened chunk to
`self._parsed_chunks`.

One `poll_and_flatten` call is embedded through an outcome oracle
`(window, metricIndex) → PollOutcome`; a chunk is identified by the window
and metric position that produced it.  The returned pair carries the
(result-or-exception, number of poll calls issued). -/

/-- `MAX_METRIC_OFFSET_DAYS = 182`. -/
def MAX_METRIC_OFFSET_DAYS : Nat := 182

/-- One `(metric_type, group_values)` entry of a `METRIC_QUERIES` list. -/
abbrev MetricSpec := String × List String

/-- Outcome of a single `poll_and_flatten` call: a flattened chunk, or an
exception raised anywhere inside it (network retry exhaustion, structural
`ValueError`, `AirbnbAuthError` from `get_first_component`, ...). -/
inductive PollOutcome where
  | ok
  | exc (e : PyExc)

/-- The inner double loop: for each sub-window and each metric pair, one
poll call; exceptions are logged and skipped, successes are appended.
Returns the accumulated chunks and the number of poll calls issued. -/
def pollWindowsLoop (oracle : Nat × Nat → Nat → PollOutcome)
    (metrics : List MetricSpec) (ws : List (Nat × Nat)) :
    List ((Nat × Nat) × Nat) × Nat :=
  ws.foldl
    (fun acc w =>
      (List.range metrics.length).foldl
        (fun acc2 i =>
          match oracle w i with
          | .ok => (acc2.1 ++ [(w, i)], acc2.2 + 1)
          | .exc _ => (acc2.1, acc2.2 + 1))
        acc)
    ([], 0)

/-- `AirbnbSync.poll_range_and_flatten`: horizon-cap check, then the
swallow-and-continue polling loop. -/
def poll_range_and_flatten (scrapeDay startDate endDate windowSizeDays : Nat)
    (metrics : List MetricSpec) (oracle : Nat × Nat → Nat → PollOutcome) :
    Except PyExc (List ((Nat × Nat) × Nat)) × Nat :=
  if scrapeDay + MAX_METRIC_OFFSET_DAYS < endDate then
    (.error (.valueError "Polling end date exceeds Airbnb offset limit"), 0)
  else
    let r := pollWindowsLoop oracle metrics (chunkWindow startDate endDate windowSizeDays)
    (.ok r.1, r.2)

/-- `AirbnbSync.fetch_listing_ids`: one `ListingsSectionQuery` poll with no
date arguments.  No horizon-cap check exists anywhere on this path
(the cap lives only in `poll_range_and_flatten`), so the discovery query
simply issues its single request and returns whatever the network gave. -/
def fetch_listing_ids (net : Except PyExc (List (String × String))) :
    Except PyExc (List (String × String)) × Nat :=
  (net, 1)

/-! ## Preflight session establishment (`network/preflight.py`)

The source snapshot's `preflight.py` contains only the legacy
`get_fresh_akamai_cookies` helper; the `create_preflight_session` function
that `run_insights_poller` imports and that `tests/network/test_preflight.py`
exercises is not present under `src/`.  It is therefore modelled from the
spec (§4.3) below. -/

/-- Whether a final URL matches the login/authentication path pattern. -/
def isLoginRedirect (finalUrl : String) : Bool :=
  strHasSub "/login".data finalUrl.data || strHasSub "/authenticate".data finalUrl.data

/-- Modelled from the spec: `create_preflight_session`
(`sync_airbnb/network/preflight.py`) is imported by `run_insights_poller`
and pinned by `tests/network/test_preflight.py` but its definition is
missing from the source snapshot.  Per spec §4.3, it creates a
fingerprint-spoofed HTTP session, loads the supplied auth cookies into its
jar, issues a GET against an authenticated dashboard path, lets the jar
absorb the response's `Set-Cookie` directives, and then applies the
decision rule: if the final URL after following redirects matches a
login/authentication path pattern, raise `AuthError` ("Session expired" in
the tests) and return no session; otherwise return the live session, whose
jar holds the auth cookies plus the freshly issued cookies.  The navigation
is embedded by its observable result: the final URL and the cookies the
response set. -/
def create_preflight_session (authCookies : List (String × String))
    (finalUrl : String) (respCookies : List (String × String)) :
    Except PyExc (List (String × String)) :=
  if isLoginRedirect finalUrl then
    .error (.airbnbAuthError "Session expired - redirected to login page")
  else
    .ok (authCookies ++ respCookies)

/-! ## The orchestrator (`services/insights.py`, `run_insights_poller`)

`METRIC_QUERIES` maps `"ChartQuery"` to one `(metric_type, group_values)`
pair (window size 28) and `"ListOfMetricsQuery"` to two pairs (window
size 7).  The per-listing loop runs over the listings sorted by display
name; its `try` body polls both query types, then parses and inserts the
accumulated chunks; the `except` clause re-raises `AirbnbAuthError`
(aborting the run before the cookie and `last_sync_at` writes) and
otherwise records the failure and continues.  Parsing plus the two insert
calls are embedded as one outcome (`parseInsertOutcome`); the preflight and
discovery steps are embedded by their outcomes as well.  The poll window
`(windowStart, windowEnd)` is the value `get_poll_window` computed. -/

/-- `METRIC_QUERIES["ChartQuery"]`. -/
def chartMetrics : List MetricSpec := [("CONVERSION", ["p3_impressions"])]

/-- `METRIC_QUERIES["ListOfMetricsQuery"]`. -/
def lomMetrics : List MetricSpec :=
  [("CONVERSION", ["conversion_rate"]), ("CONVERSION", ["p3_impressions"])]

/-- One entry of the orchestrator's `results["errors"]` list. -/
structure ErrorDetail where
  listing_id : String
  listing_name : String
  error : String
  error_type : String
deriving DecidableEq, Repr

/-- The orchestrator's `results` dict / the run's `SyncResult`. -/
structure SyncResult where
  total_listings : Nat
  succeeded : Nat
  failed : Nat
  errors : List ErrorDetail
deriving DecidableEq, Repr

/-- How the outside world behaves for one listing: the outcome of each
ChartQuery poll call, of each ListOfMetricsQuery poll call, and of the
parse-and-insert step (`none` = success). -/
structure ListingOracle where
  chartOutcome : Nat × Nat → Nat → PollOutcome
  lomOutcome : Nat × Nat → Nat → PollOutcome
  parseInsertOutcome : Option PyExc

/-- What one run of `run_insights_poller` did, beyond its return value:
which listings the loop body was entered for (in order), and whether the
evolved-cookie write (`update_account_cookies`) and the `last_sync_at`
write (`update_last_sync`) happened. -/
structure RunOutcome where
  result : Except PyExc SyncResult
  attempted : List String
  cookieWritten : Bool
  lastSyncWritten : Bool
deriving Repr

/-- Python's lexicographic code-point comparison `a < b` on strings. -/
def charListLt : List Char → List Char → Bool
  | [], [] => false
  | [], _ :: _ => true
  | _ :: _, [] => false
  | a :: as, b :: bs => if a < b then true else if b < a then false else charListLt as bs

/-- Python's `a <= b` on strings. -/
def pyStrLe (a b : String) : Bool := !charListLt b.data a.data

/-- Stable insertion of a `(listing_id, listing_name)` pair into a list
sorted by name — the order `sorted(listings.items(), key=lambda x: x[1])`
produces. -/
def insertByName (p : String × String) : List (String × String) → List (String × String)
  | [] => [p]
  | q :: rest => if pyStrLe p.2 q.2 then p :: q :: rest else q :: insertByName p rest

/-- `sorted(listings.items(), key=lambda x: x[1])`: the listings in
ascending order of display name, stably. -/
def sortListings : List (String × String) → List (String × String)
  | [] => []
  | p :: rest => insertByName p (sortListings rest)

/-- The `try` body of the per-listing loop: poll both query types over the
window, then parse and insert.  `poll_range_and_flatten` can only raise its
horizon-cap `ValueError` (every in-loop exception is swallowed inside it),
after which the parse/insert outcome decides the body's fate. -/
def listingStep (scrapeDay ws we : Nat) (o : ListingOracle) : Except PyExc Unit :=
  match (poll_range_and_flatten scrapeDay ws we 28 chartMetrics o.chartOutcome).1 with
  | .error e => .error e
  | .ok _ =>
      match (poll_range_and_flatten scrapeDay ws we 7 lomMetrics o.lomOutcome).1 with
      | .error e => .error e
      | .ok _ =>
          match o.parseInsertOutcome with
          | none => .ok ()
          | some e => .error e

/-- The per-listing loop with its `except` clause: `AirbnbAuthError`
re-raises and aborts the run (no cookie / `last_sync_at` write); any other
exception increments `failed`, records the error detail, and continues;
success increments `succeeded`.  After the last listing the evolved cookies
and the `last_sync_at` stamp are written. -/
def runLoop (scrapeDay ws we : Nat) (perListing : String → ListingOracle) :
    List (String × String) → SyncResult → List String → RunOutcome
  | [], res, att =>
      { result := .ok res, attempted := att, cookieWritten := true, lastSyncWritten := true }
  | (lid, lname) :: rest, res, att =>
      match listingStep scrapeDay ws we (perListing lid) with
      | .ok _ =>
          runLoop scrapeDay ws we perListing rest
            { res with succeeded := res.succeeded + 1 } (att ++ [lid])
      | .error e =>
          if e.isAuthError then
            { result := .error e, attempted := att ++ [lid],
              cookieWritten := false, lastSyncWritten := false }
          else
            runLoop scrapeDay ws we perListing rest
              { res with failed := res.failed + 1,
                         errors := res.errors ++
                           [⟨lid, lname, e.message, e.typeName⟩] }
              (att ++ [lid])

/-- `run_insights_poller`: preflight (an `AirbnbAuthError` or any other
exception there propagates with nothing persisted), discovery (failure
propagates; an empty listing map returns zero counts without persisting),
then the per-listing loop, then the cookie and `last_sync_at` writes. -/
def run_insights_poller (preflightOutcome : Except PyExc Unit)
    (discovery : Except PyExc (List (String × String)))
    (scrapeDay ws we : Nat) (perListing : String → ListingOracle) : RunOutcome :=
  match preflightOutcome with
  | .error e =>
      { result := .error e, attempted := [], cookieWritten := false, lastSyncWritten := false }
  | .ok _ =>
      match (fetch_listing_ids discovery).1 with
      | .error e =>
          { result := .error e, attempted := [], cookieWritten := false,
            lastSyncWritten := false }
      | .ok listings =>
          if listings.isEmpty then
            { result := .ok ⟨0, 0, 0, []⟩, attempted := [], cookieWritten := false,
              lastSyncWritten := false }
          else
            runLoop scrapeDay ws we perListing (sortListings listings)
              ⟨listings.length, 0, 0, []⟩ []

end SyncAirbnb

namespace SyncAirbnb

/-! ## Cookie parsing (`utils/cookie_utils.py`)

`parse_cookie_string` and `build_cookie_string` are embedded at the
character level (`Str := List Char`), mirroring `str.split(";")`,
`str.strip()`, `str.split("=", 1)` and insertion-ordered dict update. -/

/-- Character strings, for the cookie functions. -/
abbrev Str := List Char

/-- The characters `str.strip()` removes (Python's ASCII whitespace:
space, tab, newline, carriage return, vertical tab, form feed). -/
def pyWs (c : Char) : Bool :=
  c = ' ' || c = '\t' || c = '\n' || c = '\r' || c = '\x0b' || c = '\x0c'

/-- Strip leading whitespace (`str.lstrip()`). -/
def stripLeft (s : Str) : Str := s.dropWhile pyWs

/-- Strip trailing whitespace (`str.rstrip()`). -/
def stripRight (s : Str) : Str := (s.reverse.dropWhile pyWs).reverse

/-- `str.strip()`. -/
def pyStrip (s : Str) : Str := stripRight (stripLeft s)

/-- `str.split(";")`: the segments between semicolons, keeping empties
(a string with `n` semicolons yields `n + 1` segments). -/
def splitSemi : Str → List Str
  | [] => [[]]
  | c :: rest =>
      if c = ';' then [] :: splitSemi rest
      else
        match splitSemi rest with
        | [] => [[c]]
        | p :: ps => (c :: p) :: ps

/-- `s.split("=", 1)` for a string known to contain `'='`: the part before
the first `'='` and the part after it. -/
def splitEq1 (s : Str) : Str × Str :=
  (s.takeWhile (· != '='), (s.dropWhile (· != '=')).tail)

/-- Insertion-ordered dict update `d[name] = value`: replace in place when
the key exists, append otherwise. -/
def dictInsert : List (Str × Str) → Str → Str → List (Str × Str)
  | [], k, v => [(k, v)]
  | (k', v') :: rest, k, v =>
      if k' = k then (k', v) :: rest else (k', v') :: dictInsert rest k v

/-- The body of the `for cookie_pair in cookie_string.split(";")` loop:
strip the segment, skip it when it has no `'='`, otherwise split at the
first `'='` and store the stripped name and value. -/
def parseStep (acc : List (Str × Str)) (part : Str) : List (Str × Str) :=
  let q := pyStrip part
  if '=' ∈ q then dictInsert acc (pyStrip (splitEq1 q).1) (pyStrip (splitEq1 q).2)
  else acc

/-- `parse_cookie_string`: empty input yields the empty dict; otherwise
fold the loop body over the semicolon segments. -/
def parse_cookie_string (s : Str) : List (Str × Str) :=
  if s.isEmpty then [] else (splitSemi s).foldl parseStep []

/-- `build_cookie_string`: `"; ".join(f"{name}={value}" ...)` over the
mapping in insertion order. -/
def build_cookie_string : List (Str × Str) → Str
  | [] => []
  | [(n, v)] => n ++ '=' :: v
  | (n, v) :: p :: rest => n ++ '=' :: v ++ ';' :: ' ' :: build_cookie_string (p :: rest)

/-! ## `get_first_component` (`flatteners/utils.py`)

The function first scans `response.get("errors", [])` for an
authentication-required marker
(`err.get("extensions", {}).get("errorType") == "authentication_required"`,
short-circuiting like `any(...)`); failing that it checks whether
`"porygon" in response.get("data", {})` and
`response["data"]["porygon"]["getPerformanceComponents"]` is explicitly
`None`.  Either finding raises `AirbnbAuthError` (with the first error's
`message` when the error list is truthy).  Otherwise the nested
`.get(...)` chain with its defaults extracts the first component
(`component or {}`), and any exception inside that `try` block is
re-raised as `ValueError("Could not resolve component structure")` — the
recoverable structural error.  Expressions evaluated before the `try`
block (the error scan and the null-container check) are outside it, so a
malformed envelope there raises `AttributeError`/`TypeError` directly. -/

/-- Whether a scanned `errorType` value equals `"authentication_required"`. -/
def isAuthMarkerVal : Json → Bool
  | .strVal s => s = "authentication_required"
  | _ => false

/-- The `any(err.get("extensions", {}).get("errorType") == ... for err in errors)`
generator over a list of error entries, short-circuiting on the first hit. -/
def scanAuthMarker : List Json → Except PyExc Bool
  | [] => .ok false
  | err :: rest =>
      match err.get "extensions" (.objVal []) with
      | .error e => .error e
      | .ok ext =>
          match ext.get "errorType" .null with
          | .error e => .error e
          | .ok et => if isAuthMarkerVal et then .ok true else scanAuthMarker rest

/-- Iterating the `errors` value with the `any(...)` generator: a list is
scanned element-wise; iterating a non-empty string or dict hands a string
to `.get` (`AttributeError`); a non-iterable value is a `TypeError`. -/
def pyIterAuthAny : Json → Except PyExc Bool
  | .arrVal xs => scanAuthMarker xs
  | .strVal s =>
      if s.isEmpty then .ok false
      else .error (.otherExc "AttributeError" "object has no attribute get")
  | .objVal fields =>
      if fields.isEmpty then .ok false
      else .error (.otherExc "AttributeError" "object has no attribute get")
  | _ => .error (.otherExc "TypeError" "argument is not iterable")

/-- The fallback check:
`"porygon" in response.get("data", {})` and then
`"getPerformanceComponents" in porygon and porygon["getPerformanceComponents"] is None`. -/
def fallbackNullCheck (response : Json) : Except PyExc Bool :=
  match response.get "data" (.objVal []) with
  | .error e => .error e
  | .ok d =>
      match d.containsStr "porygon" with
      | .error e => .error e
      | .ok has =>
          if has then
            match response.indexStr "data" with
            | .error e => .error e
            | .ok d2 =>
                match d2.indexStr "porygon" with
                | .error e => .error e
                | .ok porygon =>
                    match porygon.containsStr "getPerformanceComponents" with
                    | .error e => .error e
                    | .ok hasG =>
                        if hasG then
                          match porygon.indexStr "getPerformanceComponents" with
                          | .error e => .error e
                          | .ok g => .ok g.isNull
                        else .ok false
          else .ok false

/-- `str()` conversion of the extracted error message, as interpolated into
the `AirbnbAuthError` text (container reprs abbreviated). -/
def jsonMsgStr : Json → String
  | .strVal s => s
  | .null => "None"
  | .boolVal true => "True"
  | .boolVal false => "False"
  | .intVal n => toString n
  | .arrVal _ => "<list>"
  | .objVal _ => "<dict>"

/-- `error_msg` selection: the default text, replaced by
`errors[0].get("message", error_msg)` when `errors` is truthy. -/
def authMessage (errors : Json) : Except PyExc String :=
  if errors.truthy then
    match errors.indexZero with
    | .error e => .error e
    | .ok first =>
        match first.get "message" (.strVal "Please login to continue (credentials expired)") with
        | .error e => .error e
        | .ok m => .ok (jsonMsgStr m)
  else .ok "Please login to continue (credentials expired)"

/-- The `try` block's extraction chain with its `.get` defaults:
`response.get("data", {}).get("porygon", {}).get("getPerformanceComponents", {})
.get("components", [{}])[0]`. -/
def extractChain (response : Json) : Except PyExc Json :=
  match response.get "data" (.objVal []) with
  | .error e => .error e
  | .ok d =>
      match d.get "porygon" (.objVal []) with
      | .error e => .error e
      | .ok p =>
          match p.get "getPerformanceComponents" (.objVal []) with
          | .error e => .error e
          | .ok g =>
              match g.get "components" (.arrVal [.objVal []]) with
              | .error e => .error e
              | .ok comps => comps.indexZero

/-- `get_first_component`. -/
def get_first_component (response : Json) : Except PyExc Json :=
  match response.get "errors" (.arrVal []) with
  | .error e => .error e
  | .ok errors =>
      match pyIterAuthAny errors with
      | .error e => .error e
      | .ok auth1 =>
          match (if auth1 then Except.ok true else fallbackNullCheck response) with
          | .error e => .error e
          | .ok auth =>
              if auth then
                match authMessage errors with
                | .error e => .error e
                | .ok m => .error (.airbnbAuthError ("Airbnb authentication failed: " ++ m))
              else
                match extractChain response with
                | .ok c => .ok (if c.truthy then c else .objVal [])
                | .error _ => .error (.valueError "Could not resolve component structure")

end SyncAirbnb

namespace SyncAirbnb

/-! ## Theorems -/

/-- Whether a client result is a raised `AirbnbAuthError`. -/
def resultIsAuthExc : Except PyExc Json → Bool
  | .error e => e.isAuthError
  | .ok _ => false

lemma postLoop_err_last (f : Nat → NetAttempt) (k : Nat) (e : PyExc)
    (h : postOnce (f k) = .error e) : postLoop f k 1 = (.error e, k + 1) := by
  simp only [postLoop, h]

lemma postLoop_err_step (f : Nat → NetAttempt) (k m : Nat) (e : PyExc)
    (h : postOnce (f k) = .error e) :
    postLoop f k (m + 2) = postLoop f (k + 1) (m + 1) := by
  simp only [postLoop, h]

/-- C2 counterexample: a network that answers 401 on every attempt.  The
decorated client makes all 5 attempts (4 retries) and the surfaced
exception is a generic `AirbnbRequestError`, not the fatal
`AirbnbAuthError` type — refuting "raises a fatal auth error and performs
no retry attempt for that request". -/
theorem c2_auth_status_is_retried_counterexample :
    post_with_retry (fun _ => .response ⟨401, none, "Unauthorized", none⟩) =
      (.error (.airbnbRequestError "Auth error: 401 - Unauthorized"), 5) ∧
    resultIsAuthExc
      (post_with_retry (fun _ => .response ⟨401, none, "Unauthorized", none⟩)).1 = false := by
  constructor <;> rfl

/-- C2 (amended): for every response with status 401 or 403 the body of
`post_with_retry` raises `AirbnbRequestError` with an "Auth error" message
(not the `AirbnbAuthError` type), and since the `backoff` decorator
retries every `Exception`, a network that keeps answering 401/403 sees all
5 attempts before that generic error surfaces. -/
theorem c2_amended_auth_status_generic_and_retried (res : HttpResponse)
    (f : Nat → NetAttempt) (hs : res.statusCode = 401 ∨ res.statusCode = 403)
    (hf : ∀ k, f k = .response res) :
    postOnce (.response res) =
      .error (.airbnbRequestError
        ("Auth error: " ++ toString res.statusCode ++ " - " ++ res.text)) ∧
    (post_with_retry f).2 = 5 ∧
    resultIsAuthExc (post_with_retry f).1 = false := by
  have h1 : postOnce (.response res) =
      .error (.airbnbRequestError
        ("Auth error: " ++ toString res.statusCode ++ " - " ++ res.text)) := by
    simp [postOnce, hs]
  have herr : ∀ k, postOnce (f k) =
      .error (.airbnbRequestError
        ("Auth error: " ++ toString res.statusCode ++ " - " ++ res.text)) := by
    intro k; rw [hf k, h1]
  have hrun : post_with_retry f =
      (.error (.airbnbRequestError
        ("Auth error: " ++ toString res.statusCode ++ " - " ++ res.text)), 5) := by
    show postLoop f 0 5 = _
    rw [postLoop_err_step f 0 3 _ (herr 0), postLoop_err_step f 1 2 _ (herr 1),
      postLoop_err_step f 2 1 _ (herr 2), postLoop_err_step f 3 0 _ (herr 3),
      postLoop_err_last f 4 _ (herr 4)]
  refine ⟨h1, ?_, ?_⟩
  · rw [hrun]
  · rw [hrun]; rfl

/-- C2 witness: the amended theorem applied to the constant-401 network. -/
theorem c2_amended_auth_status_generic_and_retried_witness :
    postOnce (.response ⟨401, some .null, "denied", none⟩) =
      .error (.airbnbRequestError "Auth error: 401 - denied") ∧
    (post_with_retry (fun _ => .response ⟨401, some .null, "denied", none⟩)).2 = 5 ∧
    resultIsAuthExc
      (post_with_retry (fun _ => .response ⟨401, some .null, "denied", none⟩)).1 = false :=
  c2_amended_auth_status_generic_and_retried ⟨401, some .null, "denied", none⟩
    (fun _ => .response ⟨401, some .null, "denied", none⟩) (Or.inl rfl) (fun _ => rfl)

end SyncAirbnb

namespace SyncAirbnb

/-- C6: a metric-query window whose end exceeds the anchor plus
`MAX_METRIC_OFFSET_DAYS = 182` makes `poll_range_and_flatten` raise its
fatal `ValueError` with zero poll calls issued — before any HTTP request —
while the discovery query (`fetch_listing_ids`) has no cap check at all
and always issues its single request. -/
theorem c6_horizon_cap_before_requests (scrapeDay s e size : Nat)
    (metrics : List MetricSpec) (oracle : Nat × Nat → Nat → PollOutcome)
    (h : scrapeDay + MAX_METRIC_OFFSET_DAYS < e) :
    poll_range_and_flatten scrapeDay s e size metrics oracle =
      (.error (.valueError "Polling end date exceeds Airbnb offset limit"), 0) ∧
    (∀ net : Except PyExc (List (String × String)), fetch_listing_ids net = (net, 1)) := by
  refine ⟨?_, fun _ => rfl⟩
  simp [poll_range_and_flatten, h]

/-- C6 witness: the cap theorem at anchor 0 and window end 183. -/
theorem c6_horizon_cap_before_requests_witness :
    poll_range_and_flatten 0 0 183 7 chartMetrics (fun _ _ => .ok) =
      (.error (.valueError "Polling end date exceeds Airbnb offset limit"), 0) ∧
    (∀ net : Except PyExc (List (String × String)), fetch_listing_ids net = (net, 1)) :=
  c6_horizon_cap_before_requests 0 0 183 7 chartMetrics (fun _ _ => .ok) (by decide)

/-- C5 (spec-modelled): when the preflight navigation's final URL matches
the login/authentication path pattern, `create_preflight_session` raises
`AirbnbAuthError` and returns no session; and `run_insights_poller`, whose
preflight step re-raises that error, aborts with no listing attempted and
neither the cookie string nor `last_sync_at` written. -/
theorem c5_preflight_login_redirect (authCookies respCookies : List (String × String))
    (finalUrl : String) (h : isLoginRedirect finalUrl = true) :
    create_preflight_session authCookies finalUrl respCookies =
      .error (.airbnbAuthError "Session expired - redirected to login page") ∧
    (∀ (m : String) (disc : Except PyExc (List (String × String))) (sd ws we : Nat)
        (pl : String → ListingOracle),
      run_insights_poller (.error (.airbnbAuthError m)) disc sd ws we pl =
        { result := .error (.airbnbAuthError m), attempted := [],
          cookieWritten := false, lastSyncWritten := false }) := by
  refine ⟨?_, fun m disc sd ws we pl => rfl⟩
  simp [create_preflight_session, h]

/-- C5 witness: the preflight theorem at the login URL the repository's
tests use. -/
theorem c5_preflight_login_redirect_witness :
    create_preflight_session [("_airbed_session_id", "abc")]
        "https://www.airbnb.com/login" [] =
      .error (.airbnbAuthError "Session expired - redirected to login page") ∧
    (∀ (m : String) (disc : Except PyExc (List (String × String))) (sd ws we : Nat)
        (pl : String → ListingOracle),
      run_insights_poller (.error (.airbnbAuthError m)) disc sd ws we pl =
        { result := .error (.airbnbAuthError m), attempted := [],
          cookieWritten := false, lastSyncWritten := false }) :=
  c5_preflight_login_redirect [("_airbed_session_id", "abc")] []
    "https://www.airbnb.com/login" (by rfl)

lemma poll_range_ok (scrapeDay s e size : Nat) (metrics : List MetricSpec)
    (oracle : Nat × Nat → Nat → PollOutcome)
    (h : e ≤ scrapeDay + MAX_METRIC_OFFSET_DAYS) :
    (poll_range_and_flatten scrapeDay s e size metrics oracle).1 =
      .ok (pollWindowsLoop oracle metrics (chunkWindow s e size)).1 := by
  have hn : ¬ scrapeDay + MAX_METRIC_OFFSET_DAYS < e := by omega
  simp [poll_range_and_flatten, hn]

/-- Under the horizon cap, the fate of a listing's `try` body is decided
entirely by the parse-and-insert step: `poll_range_and_flatten` swallows
every exception its poll calls raise. -/
lemma listingStep_eq (scrapeDay ws we : Nat) (o : ListingOracle)
    (h : we ≤ scrapeDay + MAX_METRIC_OFFSET_DAYS) :
    listingStep scrapeDay ws we o =
      (match o.parseInsertOutcome with
       | none => .ok ()
       | some e => .error e) := by
  have h1 := poll_range_ok scrapeDay ws we 28 chartMetrics o.chartOutcome h
  have h2 := poll_range_ok scrapeDay ws we 7 lomMetrics o.lomOutcome h
  simp only [listingStep, h1, h2]

/-- A listing oracle for which every external interaction succeeds. -/
def allOkOracle : ListingOracle :=
  { chartOutcome := fun _ _ => .ok, lomOutcome := fun _ _ => .ok,
    parseInsertOutcome := none }

/-- C1 scenario: listing "2"'s poll calls all raise `AirbnbAuthError`
(as `get_first_component` does on an expired session); everything else
succeeds. -/
def c1PerListing : String → ListingOracle := fun lid =>
  if lid = "2" then
    { chartOutcome := fun _ _ =>
        .exc (.airbnbAuthError
          "Airbnb authentication failed: Please login to continue (credentials expired)"),
      lomOutcome := fun _ _ =>
        .exc (.airbnbAuthError
          "Airbnb authentication failed: Please login to continue (credentials expired)"),
      parseInsertOutcome := none }
  else allOkOracle

/-- C1 (code bug): an `AirbnbAuthError` raised during listing 2's polling
is swallowed by `poll_range_and_flatten`'s blanket `except Exception`, so
the run does *not* abort: listing 3 is still attempted, the run returns
normally with all three listings counted as succeeded, and both the cookie
string and `last_sync_at` are written — contradicting the claim and the
code's own documentation ("stop all sync operations immediately"). -/
theorem c1_auth_error_swallowed_run_completes :
    run_insights_poller (.ok ()) (.ok [("1", "A"), ("2", "B"), ("3", "C")])
        0 0 6 c1PerListing =
      { result := .ok ⟨3, 3, 0, []⟩, attempted := ["1", "2", "3"],
        cookieWritten := true, lastSyncWritten := true } := by
  rfl

end SyncAirbnb

namespace SyncAirbnb

/-- C3 scenario: every poll call for listing "1" fails with the
`AirbnbRequestError` that `post_with_retry` surfaces once its 5 attempts
at a transient network failure are exhausted; listing "2" is healthy. -/
def c3PerListing : String → ListingOracle := fun lid =>
  if lid = "1" then
    { chartOutcome := fun _ _ =>
        .exc (.airbnbRequestError "Request failed: connection timed out"),
      lomOutcome := fun _ _ =>
        .exc (.airbnbRequestError "Request failed: connection timed out"),
      parseInsertOutcome := none }
  else allOkOracle

/-- C3 counterexample: with retry exhaustion on every one of listing 1's
poll calls, the returned `SyncResult` is `{total: 2, succeeded: 2,
failed: 0, errors: []}` — the listing is *not* counted as failed, because
`poll_range_and_flatten` swallows the exhaustion error per window. -/
theorem c3_exhaustion_not_counted_failed_counterexample :
    run_insights_poller (.ok ()) (.ok [("1", "A"), ("2", "B")]) 0 0 6 c3PerListing =
      { result := .ok ⟨2, 2, 0, []⟩, attempted := ["1", "2"],
        cookieWritten := true, lastSyncWritten := true } := by
  rfl

/-- C3 (amended): when the retry policy is exhausted during a listing's
polling, each failing window is logged and skipped inside
`poll_range_and_flatten` — whatever the poll outcomes are, it returns
normally under the horizon cap — and the listing is counted as succeeded
(not failed) whenever its parse-and-insert step succeeds, with processing
continuing normally. -/
theorem c3_amended_exhaustion_swallowed (sd ws we : Nat) (l : String × String)
    (perListing : String → ListingOracle)
    (hcap : we ≤ sd + MAX_METRIC_OFFSET_DAYS)
    (hpi : (perListing l.1).parseInsertOutcome = none) :
    (∀ (size : Nat) (metrics : List MetricSpec) (oracle : Nat × Nat → Nat → PollOutcome),
      (poll_range_and_flatten sd ws we size metrics oracle).1 =
        .ok (pollWindowsLoop oracle metrics (chunkWindow ws we size)).1) ∧
    run_insights_poller (.ok ()) (.ok [l]) sd ws we perListing =
      { result := .ok ⟨1, 1, 0, []⟩, attempted := [l.1],
        cookieWritten := true, lastSyncWritten := true } := by
  refine ⟨fun size metrics oracle => poll_range_ok sd ws we size metrics oracle hcap, ?_⟩
  have hstep := listingStep_eq sd ws we (perListing l.1) hcap
  rw [hpi] at hstep
  obtain ⟨lid, lname⟩ := l
  simp [run_insights_poller, fetch_listing_ids, sortListings, insertByName, runLoop, hstep]

/-- C3 witness: the amended theorem for one listing whose poll calls all
fail with retry exhaustion. -/
theorem c3_amended_exhaustion_swallowed_witness :
    (∀ (size : Nat) (metrics : List MetricSpec) (oracle : Nat × Nat → Nat → PollOutcome),
      (poll_range_and_flatten 0 0 6 size metrics oracle).1 =
        .ok (pollWindowsLoop oracle metrics (chunkWindow 0 6 size)).1) ∧
    run_insights_poller (.ok ()) (.ok [("1", "A")]) 0 0 6 c3PerListing =
      { result := .ok ⟨1, 1, 0, []⟩, attempted := ["1"],
        cookieWritten := true, lastSyncWritten := true } :=
  c3_amended_exhaustion_swallowed 0 0 6 ("1", "A") c3PerListing (by decide) (by rfl)

/-- C4 scenario: listing "2"'s poll calls raise the structural
`ValueError` that `get_first_component` re-raises for a malformed
envelope; listings "1" and "3" are healthy. -/
def c4PerListing : String → ListingOracle := fun lid =>
  if lid = "2" then
    { chartOutcome := fun _ _ =>
        .exc (.valueError "Could not resolve component structure"),
      lomOutcome := fun _ _ =>
        .exc (.valueError "Could not resolve component structure"),
      parseInsertOutcome := none }
  else allOkOracle

/-- C4 counterexample: with exactly one of three listings (listing 2)
raising a non-auth error during its processing — inside its polling — the
returned `SyncResult` is `{total: 3, succeeded: 3, failed: 0, errors: []}`
rather than the claimed `{total: 3, succeeded: 2, failed: 1}`: the error is
swallowed inside `poll_range_and_flatten` and never recorded. -/
theorem c4_polling_error_not_recorded_counterexample :
    run_insights_poller (.ok ()) (.ok [("1", "A"), ("2", "B"), ("3", "C")])
        0 0 6 c4PerListing =
      { result := .ok ⟨3, 3, 0, []⟩, attempted := ["1", "2", "3"],
        cookieWritten := true, lastSyncWritten := true } := by
  rfl

/-- C4 (amended): when exactly one of three listings raises a non-auth
error that propagates out of its processing body (from the horizon-cap
check, the parse/pivot step, or the database inserts — polling-internal
errors are swallowed), the returned `SyncResult` is
`{total: 3, succeeded: 2, failed: 1}`, the failure is recorded with the
listing's id, name, error type and message, and the third listing is still
processed; the cookie and `last_sync_at` writes still happen. -/
theorem c4_amended_fault_isolation (sd ws we : Nat) (l1 l2 l3 : String × String)
    (e : PyExc) (perListing : String → ListingOracle)
    (hsort : sortListings [l1, l2, l3] = [l1, l2, l3])
    (hcap : we ≤ sd + MAX_METRIC_OFFSET_DAYS)
    (h1 : (perListing l1.1).parseInsertOutcome = none)
    (h2 : (perListing l2.1).parseInsertOutcome = some e)
    (h3 : (perListing l3.1).parseInsertOutcome = none)
    (hna : e.isAuthError = false) :
    run_insights_poller (.ok ()) (.ok [l1, l2, l3]) sd ws we perListing =
      { result := .ok ⟨3, 2, 1, [⟨l2.1, l2.2, e.message, e.typeName⟩]⟩,
        attempted := [l1.1, l2.1, l3.1], cookieWritten := true,
        lastSyncWritten := true } := by
  have hs1 := listingStep_eq sd ws we (perListing l1.1) hcap
  have hs2 := listingStep_eq sd ws we (perListing l2.1) hcap
  have hs3 := listingStep_eq sd ws we (perListing l3.1) hcap
  rw [h1] at hs1
  rw [h2] at hs2
  rw [h3] at hs3
  obtain ⟨id1, n1⟩ := l1
  obtain ⟨id2, n2⟩ := l2
  obtain ⟨id3, n3⟩ := l3
  simp [run_insights_poller, fetch_listing_ids, hsort, runLoop, hs1, hs2, hs3, hna]

/-- C4 witness: the amended theorem at a concrete three-listing run where
listing 2's database insert raises. -/
theorem c4_amended_fault_isolation_witness :
    run_insights_poller (.ok ())
        (.ok [("1", "A"), ("2", "B"), ("3", "C")]) 0 0 6
        (fun lid =>
          if lid = "2" then
            { chartOutcome := fun _ _ => .ok, lomOutcome := fun _ _ => .ok,
              parseInsertOutcome := some (.otherExc "OperationalError" "insert failed") }
          else allOkOracle) =
      { result := .ok ⟨3, 2, 1, [⟨"2", "B", "insert failed", "OperationalError"⟩]⟩,
        attempted := ["1", "2", "3"], cookieWritten := true,
        lastSyncWritten := true } :=
  c4_amended_fault_isolation 0 0 6 ("1", "A") ("2", "B") ("3", "C")
    (.otherExc "OperationalError" "insert failed")
    (fun lid =>
      if lid = "2" then
        { chartOutcome := fun _ _ => .ok, lomOutcome := fun _ _ => .ok,
          parseInsertOutcome := some (.otherExc "OperationalError" "insert failed") }
      else allOkOracle)
    (by rfl) (by decide) (by rfl) (by rfl) (by rfl) (by rfl)

end SyncAirbnb

namespace SyncAirbnb

lemma chunkAux_stop (fuel cs e size : Nat) (h : e < cs) :
    chunkAux fuel cs e size = [] := by
  cases fuel with
  | zero => rfl
  | succ n =>
      have hn : ¬ cs ≤ e := by omega
      simp [chunkAux, hn]

/-- Closed form of the polling loop's sub-window sequence. -/
lemma chunkAux_closed (size : Nat) (hsz : 1 ≤ size) :
    ∀ fuel s e, s ≤ e → e + 1 - s ≤ fuel →
      chunkAux fuel s e size =
        (List.range ((e - s) / size + 1)).map
          (fun i => (s + i * size, min (s + i * size + size - 1) e)) := by
  intro fuel
  induction fuel with
  | zero => intro s e h1 h2; omega
  | succ n ih =>
      intro s e h1 h2
      simp only [chunkAux, if_pos h1]
      by_cases hc : s + size - 1 < e
      · have hmin : min (s + size - 1) e = s + size - 1 := by omega
        rw [hmin]
        have hrec := ih (s + size - 1 + 1) e (by omega) (by omega)
        rw [hrec]
        have hsub : e - (s + size - 1 + 1) = (e - s) - size := by omega
        have hdiv : (e - s) / size = ((e - s) - size) / size + 1 :=
          Nat.div_eq_sub_div (by omega) (by omega)
        rw [hsub, hdiv]
        conv_rhs => rw [List.range_succ_eq_map]
        rw [List.map_cons, List.map_map]
        refine List.cons_eq_cons.mpr ⟨?_, ?_⟩
        · have hz : (0 : Nat) * size = 0 := Nat.zero_mul size
          refine Prod.ext ?_ ?_
          · simp only [hz, Nat.add_zero]
          · simp only [hz, Nat.add_zero]
            omega
        · apply List.map_congr_left
          intro i _
          have hmul : (i + 1) * size = i * size + size := Nat.succ_mul i size
          have hone : s + size - 1 + 1 = s + size := by omega
          simp only [Function.comp_apply, Nat.succ_eq_add_one, hmul, hone]
          refine Prod.ext ?_ ?_ <;> dsimp only <;> omega
      · have hmin : min (s + size - 1) e = e := by omega
        rw [hmin]
        rw [chunkAux_stop n (e + 1) e size (by omega)]
        have hdiv : (e - s) / size = 0 := Nat.div_eq_of_lt (by omega)
        rw [hdiv]
        have hr1 : List.range 1 = [0] := rfl
        simp only [hr1, List.map_cons, List.map_nil, Nat.zero_mul, Nat.add_zero]
        rw [hmin]

end SyncAirbnb

namespace SyncAirbnb

/-- C8: under `start ≤ end` and a positive window size, the polling loop's
sub-window sequence is the rolling chunking of the claim: the `i`-th
sub-window is `(start + i*size, min(start + i*size + size - 1, end))`; the
first starts at `start`, every sub-window is a closed interval that either
has exactly `size` days or is truncated to end at `end`, some sub-window
ends at `end`, and consecutive sub-windows are contiguous in order.  In
particular the range 2025-01-01..2025-01-20 with size 7 chunks into
(01-01, 01-07), (01-08, 01-14), (01-15, 01-20). -/
theorem c8_chunk_window_rolling (s e size : Nat) (h1 : s ≤ e) (hsz : 1 ≤ size) :
    chunkWindow s e size =
      (List.range ((e - s) / size + 1)).map
        (fun i => (s + i * size, min (s + i * size + size - 1) e)) ∧
    (chunkWindow s e size).head? = some (s, min (s + size - 1) e) ∧
    (∀ p ∈ chunkWindow s e size, p.1 ≤ p.2 ∧ p.2 = min (p.1 + size - 1) e) ∧
    (∀ p ∈ chunkWindow s e size, p.2 + 1 - p.1 = size ∨ p.2 = e) ∧
    (∃ p ∈ chunkWindow s e size, p.2 = e) ∧
    List.Chain' (fun a b => b.1 = a.2 + 1) (chunkWindow s e size) ∧
    chunkWindow (toOrdinal 2025 1 1) (toOrdinal 2025 1 20) 7 =
      [(toOrdinal 2025 1 1, toOrdinal 2025 1 7),
       (toOrdinal 2025 1 8, toOrdinal 2025 1 14),
       (toOrdinal 2025 1 15, toOrdinal 2025 1 20)] := by
  have hA : chunkWindow s e size =
      (List.range ((e - s) / size + 1)).map
        (fun i => (s + i * size, min (s + i * size + size - 1) e)) :=
    chunkAux_closed size hsz (e + 1 - s) s e h1 (by omega)
  have hdm : (e - s) / size * size ≤ e - s := Nat.div_mul_le_self (e - s) size
  have hstart : ∀ i, i ≤ (e - s) / size → s + i * size ≤ e := by
    intro i hi
    have h2 : i * size ≤ (e - s) / size * size := Nat.mul_le_mul_right size hi
    omega
  refine ⟨hA, ?_, ?_, ?_, ?_, ?_, ?_⟩
  · rw [hA, List.range_succ_eq_map]
    simp only [List.map_cons, List.head?_cons, Nat.zero_mul, Nat.add_zero]
  · rw [hA]
    intro p hp
    obtain ⟨i, hi, rfl⟩ := List.mem_map.mp hp
    have hi' : i ≤ (e - s) / size := by
      have := List.mem_range.mp hi; omega
    have hse := hstart i hi'
    refine ⟨?_, rfl⟩
    dsimp only
    exact le_min (by omega) hse
  · rw [hA]
    intro p hp
    obtain ⟨i, hi, rfl⟩ := List.mem_map.mp hp
    dsimp only
    set u := i * size with hu
    rcases le_or_lt (s + u + size - 1) e with hle | hlt
    · left
      rw [min_eq_left hle]
      omega
    · right
      exact min_eq_right (by omega)
  · rw [hA]
    refine ⟨(s + (e - s) / size * size,
      min (s + (e - s) / size * size + size - 1) e), ?_, ?_⟩
    · exact List.mem_map.mpr ⟨(e - s) / size, List.mem_range.mpr (by omega), rfl⟩
    · have hmod := Nat.div_add_mod (e - s) size
      have hcm : size * ((e - s) / size) = (e - s) / size * size :=
        Nat.mul_comm size ((e - s) / size)
      rw [hcm] at hmod
      have hlt : (e - s) % size < size := Nat.mod_lt _ (by omega)
      dsimp only
      exact min_eq_right (by omega)
  · rw [hA, List.chain'_map, List.chain'_range_succ]
    intro m hm
    have hle : m + 1 ≤ (e - s) / size := by omega
    have h2 : (m + 1) * size ≤ (e - s) / size * size :=
      Nat.mul_le_mul_right size hle
    have hmul : (m + 1) * size = m * size + size := Nat.succ_mul m size
    rw [hmul] at h2
    dsimp only
    simp only [Nat.succ_eq_add_one, hmul]
    set u := m * size with hu
    set q := (e - s) / size * size with hq
    have hmle : s + u + size - 1 ≤ e := by omega
    rw [min_eq_left hmle]
    omega
  · decide

/-- C8 witness: the chunking theorem applied to the 20-day January 2025
range with size 7. -/
theorem c8_chunk_window_rolling_witness :
    chunkWindow 0 9 7 =
      (List.range ((9 - 0) / 7 + 1)).map
        (fun i => (0 + i * 7, min (0 + i * 7 + 7 - 1) 9)) ∧
    (chunkWindow 0 9 7).head? = some (0, min (0 + 7 - 1) 9) ∧
    (∀ p ∈ chunkWindow 0 9 7, p.1 ≤ p.2 ∧ p.2 = min (p.1 + 7 - 1) 9) ∧
    (∀ p ∈ chunkWindow 0 9 7, p.2 + 1 - p.1 = 7 ∨ p.2 = 9) ∧
    (∃ p ∈ chunkWindow 0 9 7, p.2 = 9) ∧
    List.Chain' (fun a b => b.1 = a.2 + 1) (chunkWindow 0 9 7) ∧
    chunkWindow (toOrdinal 2025 1 1) (toOrdinal 2025 1 20) 7 =
      [(toOrdinal 2025 1 1, toOrdinal 2025 1 7),
       (toOrdinal 2025 1 8, toOrdinal 2025 1 14),
       (toOrdinal 2025 1 15, toOrdinal 2025 1 20)] :=
  c8_chunk_window_rolling 0 9 7 (by decide) (by decide)

end SyncAirbnb

namespace SyncAirbnb

/-! ### Cookie lemmas -/

lemma dropWhile_append_cons (p : Char → Bool) (as : List Char) (b : Char)
    (bs : List Char) (hb : p b = false) :
    (as ++ b :: bs).dropWhile p = as.dropWhile p ++ b :: bs := by
  induction as with
  | nil => simp [List.dropWhile_cons, hb]
  | cons c t ih =>
      by_cases hc : p c
      · simp [List.dropWhile_cons, hc, ih]
      · simp [List.dropWhile_cons, hc]

lemma dropWhile_idem (p : Char → Bool) (l : List Char) :
    (l.dropWhile p).dropWhile p = l.dropWhile p := by
  induction l with
  | nil => rfl
  | cons c t ih =>
      by_cases hc : p c
      · simp [List.dropWhile_cons, hc, ih]
      · simp [List.dropWhile_cons, hc]

lemma dropWhile_head_false (p : Char → Bool) :
    ∀ (l : List Char) (c : Char) (t : List Char),
      l.dropWhile p = c :: t → p c = false := by
  intro l
  induction l with
  | nil => intro c t h; simp [List.dropWhile] at h
  | cons a l ih =>
      intro c t h
      by_cases ha : p a
      · rw [List.dropWhile_cons, if_pos ha] at h
        exact ih c t h
      · rw [List.dropWhile_cons, if_neg ha] at h
        obtain ⟨rfl, -⟩ := List.cons_eq_cons.mp h
        exact Bool.not_eq_true _ ▸ by simpa using ha

lemma stripLeft_append_eq (n : Str) (b : Char) (v : Str) (hb : pyWs b = false) :
    stripLeft (n ++ b :: v) = stripLeft n ++ b :: v :=
  dropWhile_append_cons pyWs n b v hb

lemma stripRight_append_cons (as : Str) (b : Char) (bs : Str) (hb : pyWs b = false) :
    stripRight (as ++ b :: bs) = as ++ b :: stripRight bs := by
  unfold stripRight
  have h1 : (as ++ b :: bs).reverse = bs.reverse ++ b :: as.reverse := by simp
  rw [h1, dropWhile_append_cons pyWs bs.reverse b as.reverse hb]
  simp

lemma stripLeft_stripLeft (s : Str) : stripLeft (stripLeft s) = stripLeft s :=
  dropWhile_idem pyWs s

lemma stripRight_stripRight (s : Str) : stripRight (stripRight s) = stripRight s := by
  unfold stripRight
  rw [List.reverse_reverse, dropWhile_idem]

lemma stripLeft_stripRight_comm (v : Str) :
    stripLeft (stripRight v) = stripRight (stripLeft v) := by
  cases hd : stripLeft v with
  | nil =>
      have hall : ∀ c ∈ v, pyWs c := by
        have := List.dropWhile_eq_nil_iff.mp hd
        intro c hc; exact this c hc
      have hrev : stripRight v = [] := by
        unfold stripRight
        rw [List.dropWhile_eq_nil_iff.mpr (fun c hc => hall c (List.mem_reverse.mp hc))]
        rfl
      rw [hrev]
      rfl
  | cons c t =>
      have hpc : pyWs c = false := dropWhile_head_false pyWs v c t hd
      have hv : v.takeWhile pyWs ++ c :: t = v := by
        rw [← hd]
        unfold stripLeft
        exact List.takeWhile_append_dropWhile pyWs v
      have hw : (v.takeWhile pyWs).dropWhile pyWs = [] :=
        List.dropWhile_eq_nil_iff.mpr (fun x hx => List.mem_takeWhile_imp hx)
      calc stripLeft (stripRight v)
          = stripLeft (stripRight (v.takeWhile pyWs ++ c :: t)) := by rw [hv]
        _ = stripLeft (v.takeWhile pyWs ++ c :: stripRight t) := by
              rw [stripRight_append_cons _ _ _ hpc]
        _ = (v.takeWhile pyWs).dropWhile pyWs ++ c :: stripRight t := by
              unfold stripLeft
              exact dropWhile_append_cons pyWs _ c _ hpc
        _ = c :: stripRight t := by rw [hw]; rfl
        _ = stripRight (c :: t) := by
              have := stripRight_append_cons [] c t hpc
              simpa using this.symm

lemma pyStrip_stripLeft (n : Str) : pyStrip (stripLeft n) = pyStrip n := by
  unfold pyStrip
  rw [stripLeft_stripLeft]

lemma pyStrip_stripRight (v : Str) : pyStrip (stripRight v) = pyStrip v := by
  unfold pyStrip
  rw [stripLeft_stripRight_comm, stripRight_stripRight]

lemma mem_stripLeft_subset {x : Char} {s : Str} (h : x ∈ stripLeft s) : x ∈ s :=
  (List.dropWhile_sublist pyWs).subset h

lemma mem_pyStrip_subset {x : Char} {s : Str} (h : x ∈ pyStrip s) : x ∈ s := by
  unfold pyStrip stripRight at h
  have h1 : x ∈ List.dropWhile pyWs (stripLeft s).reverse := List.mem_reverse.mp h
  have h2 : x ∈ (stripLeft s).reverse := (List.dropWhile_sublist pyWs).subset h1
  exact mem_stripLeft_subset (List.mem_reverse.mp h2)

end SyncAirbnb

namespace SyncAirbnb

lemma splitSemi_ne_nil (s : Str) : splitSemi s ≠ [] := by
  cases s with
  | nil => simp [splitSemi]
  | cons c t =>
      by_cases hc : c = ';'
      · simp [splitSemi, hc]
      · cases hsp : splitSemi t with
        | nil => simp [splitSemi, hc, hsp]
        | cons p ps => simp [splitSemi, hc, hsp]

lemma splitSemi_no_semi (xs : Str) (h : ';' ∉ xs) : splitSemi xs = [xs] := by
  induction xs with
  | nil => rfl
  | cons c t ih =>
      have hc : ¬ c = ';' := fun hc => h (hc ▸ List.mem_cons_self c t)
      have ht : ';' ∉ t := fun hm => h (List.mem_cons_of_mem c hm)
      simp [splitSemi, hc, ih ht]

lemma splitSemi_append (xs ys : Str) (h : ';' ∉ xs) :
    splitSemi (xs ++ ';' :: ys) = xs :: splitSemi ys := by
  induction xs with
  | nil => simp [splitSemi]
  | cons c t ih =>
      have hc : ¬ c = ';' := fun hc => h (hc ▸ List.mem_cons_self c t)
      have ht : ';' ∉ t := fun hm => h (List.mem_cons_of_mem c hm)
      simp [splitSemi, hc, ih ht]

lemma takeWhile_all_append (p : Char → Bool) (as : List Char) (b : Char)
    (bs : List Char) (ha : ∀ a ∈ as, p a = true) (hb : p b = false) :
    (as ++ b :: bs).takeWhile p = as := by
  induction as with
  | nil => simp [List.takeWhile_cons, hb]
  | cons c t ih =>
      have hc : p c = true := ha c (List.mem_cons_self c t)
      have ht : ∀ a ∈ t, p a = true := fun a hm => ha a (List.mem_cons_of_mem c hm)
      simp [List.takeWhile_cons, hc, ih ht]

lemma dropWhile_all_append (p : Char → Bool) (as : List Char) (b : Char)
    (bs : List Char) (ha : ∀ a ∈ as, p a = true) (hb : p b = false) :
    (as ++ b :: bs).dropWhile p = b :: bs := by
  rw [dropWhile_append_cons p as b bs hb, List.dropWhile_eq_nil_iff.mpr]
  · rfl
  · intro x hx; exact ha x hx

/-- Processing one `name=value` segment: the loop stores
`(name.strip(), value.strip())`, splitting at the first `'='`. -/
lemma parseStep_pair (acc : List (Str × Str)) (n v : Str) (hn : '=' ∉ n) :
    parseStep acc (n ++ '=' :: v) = dictInsert acc (pyStrip n) (pyStrip v) := by
  have heqws : pyWs '=' = false := rfl
  have hq : pyStrip (n ++ '=' :: v) = stripLeft n ++ '=' :: stripRight v := by
    unfold pyStrip
    rw [stripLeft_append_eq n '=' v heqws, stripRight_append_cons _ _ _ heqws]
  have hmem : '=' ∈ stripLeft n ++ '=' :: stripRight v := by
    simp
  have hnotin : ∀ a ∈ stripLeft n, (a != '=') = true := by
    intro a ha
    have : a ∈ n := mem_stripLeft_subset ha
    have hne : a ≠ '=' := fun he => hn (he ▸ this)
    simpa using hne
  have hsplit1 : (stripLeft n ++ '=' :: stripRight v).takeWhile (· != '=') = stripLeft n :=
    takeWhile_all_append _ _ _ _ hnotin (by simp)
  have hsplit2 : (stripLeft n ++ '=' :: stripRight v).dropWhile (· != '=') =
      '=' :: stripRight v :=
    dropWhile_all_append _ _ _ _ hnotin (by simp)
  unfold parseStep
  rw [hq]
  rw [if_pos hmem]
  unfold splitEq1
  rw [hsplit1, hsplit2]
  simp only [List.tail_cons]
  rw [pyStrip_stripLeft, pyStrip_stripRight]

/-- A segment with no `'='` is skipped. -/
lemma parseStep_skip (acc : List (Str × Str)) (seg : Str) (h : '=' ∉ seg) :
    parseStep acc seg = acc := by
  unfold parseStep
  rw [if_neg]
  intro hmem
  exact h (mem_pyStrip_subset hmem)

/-- A leading whitespace character on a segment is invisible to the loop
body (the segment is stripped first). -/
lemma parseStep_cons_ws (acc : List (Str × Str)) (c : Char) (seg : Str)
    (hc : pyWs c = true) : parseStep acc (c :: seg) = parseStep acc seg := by
  have hstrip : pyStrip (c :: seg) = pyStrip seg := by
    unfold pyStrip stripLeft
    rw [List.dropWhile_cons, if_pos hc]
  unfold parseStep
  rw [hstrip]

lemma dictInsert_fresh (acc : List (Str × Str)) (k v : Str)
    (h : k ∉ acc.map Prod.fst) : dictInsert acc k v = acc ++ [(k, v)] := by
  induction acc with
  | nil => rfl
  | cons p rest ih =>
      have hne : ¬ p.1 = k := by
        intro he; exact h (by simp [he])
      have hrest : k ∉ rest.map Prod.fst := by
        intro hm; exact h (by simp [hm])
      obtain ⟨k', v'⟩ := p
      simp only [dictInsert, if_neg hne, List.cons_append, List.cons.injEq, true_and]
      exact ih hrest

end SyncAirbnb

namespace SyncAirbnb

/-- A well-formed segment parses to its stripped name/value pair. -/
lemma parse_cookie_single (n v : Str) (hn : '=' ∉ n) (hsn : ';' ∉ n)
    (hsv : ';' ∉ v) :
    parse_cookie_string (n ++ '=' :: v) = [(pyStrip n, pyStrip v)] := by
  have hne : (n ++ '=' :: v).isEmpty = false := by cases n <;> rfl
  have hnosemi : ';' ∉ n ++ '=' :: v := by
    intro hm
    rcases List.mem_append.mp hm with h | h
    · exact hsn h
    · rcases List.mem_cons.mp h with h | h
      · exact absurd h (by decide)
      · exact hsv h
  unfold parse_cookie_string
  rw [if_neg (by simp [hne])]
  rw [splitSemi_no_semi _ hnosemi, List.foldl_cons, List.foldl_nil]
  rw [parseStep_pair [] n v hn]
  rfl

/-- A segment with no `'='` is skipped wholesale. -/
lemma parse_cookie_skip (seg rest : Str) (hsemi : ';' ∉ seg) (heq : '=' ∉ seg) :
    parse_cookie_string (seg ++ ';' :: rest) = parse_cookie_string rest := by
  have hne : (seg ++ ';' :: rest).isEmpty = false := by cases seg <;> rfl
  unfold parse_cookie_string
  rw [if_neg (by simp [hne])]
  rw [splitSemi_append seg rest hsemi, List.foldl_cons, parseStep_skip [] seg heq]
  by_cases hr : rest.isEmpty
  · have hrn : rest = [] := by
      cases rest with
      | nil => rfl
      | cons a b => simp at hr
    subst hrn
    rw [if_pos (by simp)]
    simp [splitSemi, parseStep_skip]
  · rw [if_neg (by simp [hr])]

/-- When the same name occurs twice, the second occurrence's value wins. -/
lemma parse_cookie_lastwins (n v1 v2 : Str) (hn : '=' ∉ n) (hsn : ';' ∉ n)
    (hv1 : ';' ∉ v1) (hv2 : ';' ∉ v2) :
    parse_cookie_string ((n ++ '=' :: v1) ++ ';' :: (n ++ '=' :: v2)) =
      [(pyStrip n, pyStrip v2)] := by
  have hxs : ';' ∉ n ++ '=' :: v1 := by
    intro hm
    rcases List.mem_append.mp hm with h | h
    · exact hsn h
    · rcases List.mem_cons.mp h with h | h
      · exact absurd h (by decide)
      · exact hv1 h
  have hys : ';' ∉ n ++ '=' :: v2 := by
    intro hm
    rcases List.mem_append.mp hm with h | h
    · exact hsn h
    · rcases List.mem_cons.mp h with h | h
      · exact absurd h (by decide)
      · exact hv2 h
  have hne : ((n ++ '=' :: v1) ++ ';' :: (n ++ '=' :: v2)).isEmpty = false := by
    cases n <;> rfl
  unfold parse_cookie_string
  rw [if_neg (by simp [hne])]
  rw [splitSemi_append _ _ hxs, splitSemi_no_semi _ hys]
  rw [List.foldl_cons, List.foldl_cons, List.foldl_nil]
  rw [parseStep_pair [] n v1 hn]
  rw [parseStep_pair _ n v2 hn]
  simp [dictInsert]

/-- The claim's well-formedness of one cookie pair, plus the
whitespace-stability the amended claim adds: name and value contain no
`'='`/`';'` and are invariant under stripping. -/
def cookiePairOk (p : Str × Str) : Prop :=
  '=' ∉ p.1 ∧ ';' ∉ p.1 ∧ '=' ∉ p.2 ∧ ';' ∉ p.2 ∧
  stripLeft p.1 = p.1 ∧ stripRight p.1 = p.1 ∧
  stripLeft p.2 = p.2 ∧ stripRight p.2 = p.2

instance (p : Str × Str) : Decidable (cookiePairOk p) := by
  unfold cookiePairOk
  infer_instance

lemma parse_build_aux :
    ∀ (m acc : List (Str × Str)),
      (∀ p ∈ m, cookiePairOk p) →
      (m.map Prod.fst).Nodup →
      (∀ p ∈ m, p.1 ∉ acc.map Prod.fst) →
      List.foldl parseStep acc (splitSemi (build_cookie_string m)) = acc ++ m := by
  intro m
  induction m with
  | nil =>
      intro acc _ _ _
      rw [show build_cookie_string [] = [] from rfl]
      rw [show splitSemi [] = [[]] from rfl]
      rw [List.foldl_cons, List.foldl_nil, parseStep_skip acc [] (by simp)]
      simp
  | cons hd tl ih =>
      intro acc hwf hnd hfresh
      obtain ⟨n, v⟩ := hd
      have hok := hwf (n, v) (List.mem_cons_self _ _)
      obtain ⟨hn, hsn, hvne, hsv, hsl, hsr, hvl, hvr⟩ := hok
      have hstripn : pyStrip n = n := by unfold pyStrip; rw [hsl, hsr]
      have hstripv : pyStrip v = v := by unfold pyStrip; rw [hvl, hvr]
      have hxs : ';' ∉ n ++ '=' :: v := by
        intro hm
        rcases List.mem_append.mp hm with h | h
        · exact hsn h
        · rcases List.mem_cons.mp h with h | h
          · exact absurd h (by decide)
          · exact hsv h
      have hfr : n ∉ acc.map Prod.fst := hfresh (n, v) (List.mem_cons_self _ _)
      cases tl with
      | nil =>
          rw [show build_cookie_string [(n, v)] = n ++ '=' :: v from rfl]
          rw [splitSemi_no_semi _ hxs, List.foldl_cons, List.foldl_nil]
          rw [parseStep_pair acc n v hn, hstripn, hstripv]
          exact dictInsert_fresh acc n v hfr
      | cons p rest =>
          have hb : build_cookie_string ((n, v) :: p :: rest) =
              (n ++ '=' :: v) ++ ';' :: (' ' :: build_cookie_string (p :: rest)) := by
            simp [build_cookie_string]
          rw [hb, splitSemi_append _ _ hxs, List.foldl_cons]
          rw [parseStep_pair acc n v hn, hstripn, hstripv, dictInsert_fresh acc n v hfr]
          simp only [List.map_cons] at hnd
          obtain ⟨hnotin, hndtl⟩ := List.nodup_cons.mp hnd
          have hfresh' : ∀ q ∈ p :: rest, q.1 ∉ (acc ++ [(n, v)]).map Prod.fst := by
            intro q hq hmem
            rw [List.map_append] at hmem
            rcases List.mem_append.mp hmem with h | h
            · exact hfresh q (List.mem_cons_of_mem _ hq) h
            · have hq1 : q.1 = n := by simpa using h
              exact hnotin (hq1 ▸ List.mem_map_of_mem Prod.fst hq)
          have hfold := ih (acc ++ [(n, v)])
            (fun q hq => hwf q (List.mem_cons_of_mem _ hq)) hndtl hfresh'
          cases hsp : splitSemi (build_cookie_string (p :: rest)) with
          | nil => exact absurd hsp (splitSemi_ne_nil _)
          | cons q qs =>
              have hspc : splitSemi (' ' :: build_cookie_string (p :: rest)) =
                  (' ' :: q) :: qs := by
                simp [splitSemi, hsp]
              rw [hspc, List.foldl_cons, parseStep_cons_ws _ _ _ (by decide)]
              rw [hsp, List.foldl_cons] at hfold
              rw [hfold]
              simp

end SyncAirbnb

namespace SyncAirbnb

/-- Distinct cookie names (the claim's "distinct names" hypothesis), as a
computable check. -/
def noDupKeys : List (Str × Str) → Bool
  | [] => true
  | p :: rest => !((rest.map Prod.fst).contains p.1) && noDupKeys rest

/-- The claim's character restriction, as a computable check: neither name
nor value contains `'='` or `';'`. -/
def pairNoBad (p : Str × Str) : Bool :=
  !p.1.contains '=' && !p.1.contains ';' && !p.2.contains '=' && !p.2.contains ';'

/-- C9 counterexample: the one-entry mapping `{" a": "b"}` has distinct
names and no `'='`/`';'` anywhere, yet `parse(build(m)) = {"a": "b"} ≠ m`
because parsing strips the name's leading whitespace — refuting the
round-trip claim as stated. -/
theorem c9_roundtrip_counterexample :
    noDupKeys [([' ', 'a'], ['b'])] = true ∧
    ([([' ', 'a'], ['b'])] : List (Str × Str)).all pairNoBad = true ∧
    parse_cookie_string (build_cookie_string [([' ', 'a'], ['b'])]) ≠
      [([' ', 'a'], ['b'])] := by
  refine ⟨rfl, rfl, ?_⟩
  decide

/-- C9 (amended): for every mapping with distinct names whose names and
values contain no `'='`/`';'` *and carry no leading or trailing
whitespace*, `parse(build(m)) = m` (with equal insertion order, hence
equal as Python dicts). -/
theorem c9_amended_roundtrip (m : List (Str × Str))
    (hnd : (m.map Prod.fst).Nodup)
    (hwf : ∀ p ∈ m, cookiePairOk p) :
    parse_cookie_string (build_cookie_string m) = m := by
  cases m with
  | nil => rfl
  | cons hd tl =>
      have hne : (build_cookie_string (hd :: tl)).isEmpty = false := by
        obtain ⟨n, v⟩ := hd
        cases tl with
        | nil => cases n with
          | nil => rfl
          | cons a b => rfl
        | cons p rest => cases n with
          | nil => rfl
          | cons a b => rfl
      unfold parse_cookie_string
      rw [if_neg (by simp [hne])]
      have := parse_build_aux (hd :: tl) [] hwf hnd (by simp)
      simpa using this

/-- C9 witness: the amended round trip on a concrete two-cookie mapping. -/
theorem c9_amended_roundtrip_witness :
    parse_cookie_string (build_cookie_string
        [(['a'], ['1']), (['b', 'c'], ['2', '3'])]) =
      [(['a'], ['1']), (['b', 'c'], ['2', '3'])] :=
  c9_amended_roundtrip [(['a'], ['1']), (['b', 'c'], ['2', '3'])]
    (by decide) (by decide)

/-- C10: `parse_cookie_string` is total (it is a plain function of its
input — no operation in its body can raise: the `'=' in pair` guard makes
the two-way unpacking of `split("=", 1)` safe), the empty string yields the
empty mapping, a segment without `'='` is silently skipped, names and
values are whitespace-trimmed, and when a name repeats the last
occurrence's value wins. -/
theorem c10_parse_total_behavior :
    parse_cookie_string [] = [] ∧
    (∀ seg rest : Str, ';' ∉ seg → '=' ∉ seg →
      parse_cookie_string (seg ++ ';' :: rest) = parse_cookie_string rest) ∧
    (∀ n v : Str, '=' ∉ n → ';' ∉ n → ';' ∉ v →
      parse_cookie_string (n ++ '=' :: v) = [(pyStrip n, pyStrip v)]) ∧
    (∀ n v1 v2 : Str, '=' ∉ n → ';' ∉ n → ';' ∉ v1 → ';' ∉ v2 →
      parse_cookie_string ((n ++ '=' :: v1) ++ ';' :: (n ++ '=' :: v2)) =
        [(pyStrip n, pyStrip v2)]) :=
  ⟨rfl,
   fun seg rest h1 h2 => parse_cookie_skip seg rest h1 h2,
   fun n v h1 h2 h3 => parse_cookie_single n v h1 h2 h3,
   fun n v1 v2 h1 h2 h3 h4 => parse_cookie_lastwins n v1 v2 h1 h2 h3 h4⟩

/-- C10 witness: the behavior theorem applied to concrete segments — a
skipped garbage segment, a whitespace-trimmed pair, and a duplicated
name. -/
theorem c10_parse_total_behavior_witness :
    parse_cookie_string (['x'] ++ ';' :: ['a', '=', 'b']) =
      parse_cookie_string ['a', '=', 'b'] ∧
    parse_cookie_string ([' ', 'a'] ++ '=' :: ['b', ' ']) =
      [(pyStrip [' ', 'a'], pyStrip ['b', ' '])] ∧
    parse_cookie_string ((['a'] ++ '=' :: ['b']) ++ ';' :: (['a'] ++ '=' :: ['c'])) =
      [(pyStrip ['a'], pyStrip ['c'])] :=
  ⟨c10_parse_total_behavior.2.1 ['x'] ['a', '=', 'b'] (by decide) (by decide),
   c10_parse_total_behavior.2.2.1 [' ', 'a'] ['b', ' '] (by decide) (by decide) (by decide),
   c10_parse_total_behavior.2.2.2 ['a'] ['b'] ['c'] (by decide) (by decide)
     (by decide) (by decide)⟩

end SyncAirbnb

namespace SyncAirbnb

/-! ### `get_first_component` analysis -/

/-- Whether a flattener result is a raised `AirbnbAuthError`. -/
def isAuthResult : Except PyExc Json → Bool
  | .error (.airbnbAuthError _) => true
  | _ => false

/-- Whether a flattener result is the recoverable structural `ValueError`. -/
def isStructuralResult : Except PyExc Json → Bool
  | .error (.valueError _) => true
  | _ => false

/-- Spec reading of one error entry: it carries the
authentication-required marker under `extensions.errorType`. -/
def specMarkerEntry (err : Json) : Bool :=
  match err with
  | .objVal efs =>
      match Json.lookupField efs "extensions" with
      | some (.objVal xfs) =>
          match Json.lookupField xfs "errorType" with
          | some (.strVal s) => s = "authentication_required"
          | _ => false
      | _ => false
  | _ => false

/-- Spec reading of claim condition (a): the envelope's top-level error
list contains an authentication-required marker. -/
def specAuthMarker (response : Json) : Bool :=
  match response with
  | .objVal fields =>
      match Json.lookupField fields "errors" with
      | some (.arrVal es) => es.any specMarkerEntry
      | _ => false
  | _ => false

/-- Spec reading of claim condition (b): the performance-components
container is explicitly present but null (not merely absent). -/
def specNullContainer (response : Json) : Bool :=
  match response with
  | .objVal fields =>
      match Json.lookupField fields "data" with
      | some (.objVal dfs) =>
          match Json.lookupField dfs "porygon" with
          | some (.objVal pfs) =>
              match Json.lookupField pfs "getPerformanceComponents" with
              | some .null => true
              | _ => false
          | _ => false
      | _ => false
  | _ => false

/-- One error entry is shapely: a dict whose `extensions` value, when
present, is itself a dict (so the scan's `.get` calls cannot raise). -/
def errEntryShapely (err : Json) : Bool :=
  match err with
  | .objVal efs =>
      match Json.lookupField efs "extensions" with
      | none => true
      | some (.objVal _) => true
      | some _ => false
  | _ => false

/-- The `errors` side of the envelope is shapely: absent, or a list of
shapely entries. -/
def errorsShapely (fields : List (String × Json)) : Bool :=
  match Json.lookupField fields "errors" with
  | none => true
  | some (.arrVal es) => es.all errEntryShapely
  | some _ => false

/-- The `data` side of the envelope is shapely: absent, or a dict whose
`porygon` value (when present) is a dict. -/
def dataShapely (fields : List (String × Json)) : Bool :=
  match Json.lookupField fields "data" with
  | none => true
  | some (.objVal dfs) =>
      (match Json.lookupField dfs "porygon" with
       | none => true
       | some (.objVal _) => true
       | some _ => false)
  | some _ => false

/-- The envelope is shapely: a dict whose `errors` value (when present) is
a list of shapely entries and whose `data` value (when present) is a dict
with a dict `porygon` (when present) — the region the auth scan touches is
free of type errors. -/
def envelopeShapely (response : Json) : Bool :=
  match response with
  | .objVal fields => errorsShapely fields && dataShapely fields
  | _ => false

/-- The short-circuiting marker scan evaluates, on shapely entries, to the
spec's "contains a marker" predicate. -/
lemma scanAuthMarker_shapely (es : List Json) (h : es.all errEntryShapely = true) :
    scanAuthMarker es = .ok (es.any specMarkerEntry) := by
  induction es with
  | nil => rfl
  | cons err rest ih =>
      rw [List.all_cons, Bool.and_eq_true] at h
      obtain ⟨hhd, htl⟩ := h
      have ihr := ih htl
      cases err with
      | objVal efs =>
          cases hx : Json.lookupField efs "extensions" with
          | none =>
              simp [scanAuthMarker, Json.get, hx, isAuthMarkerVal, Json.lookupField,
                specMarkerEntry, List.any_cons, ihr]
          | some ext =>
              cases ext with
              | objVal xfs =>
                  cases hy : Json.lookupField xfs "errorType" with
                  | none =>
                      simp [scanAuthMarker, Json.get, hx, hy, isAuthMarkerVal,
                        specMarkerEntry, List.any_cons, ihr]
                  | some et =>
                      cases et with
                      | strVal s =>
                          by_cases hs : s = "authentication_required"
                          · simp [scanAuthMarker, Json.get, hx, hy, isAuthMarkerVal, hs,
                              specMarkerEntry, List.any_cons]
                          · simp [scanAuthMarker, Json.get, hx, hy, isAuthMarkerVal, hs,
                              specMarkerEntry, List.any_cons, ihr]
                      | null =>
                          simp [scanAuthMarker, Json.get, hx, hy, isAuthMarkerVal,
                            specMarkerEntry, List.any_cons, ihr]
                      | boolVal b =>
                          simp [scanAuthMarker, Json.get, hx, hy, isAuthMarkerVal,
                            specMarkerEntry, List.any_cons, ihr]
                      | intVal n =>
                          simp [scanAuthMarker, Json.get, hx, hy, isAuthMarkerVal,
                            specMarkerEntry, List.any_cons, ihr]
                      | arrVal xs =>
                          simp [scanAuthMarker, Json.get, hx, hy, isAuthMarkerVal,
                            specMarkerEntry, List.any_cons, ihr]
                      | objVal fs2 =>
                          simp [scanAuthMarker, Json.get, hx, hy, isAuthMarkerVal,
                            specMarkerEntry, List.any_cons, ihr]
              | null => simp [errEntryShapely, hx] at hhd
              | boolVal b => simp [errEntryShapely, hx] at hhd
              | intVal n => simp [errEntryShapely, hx] at hhd
              | strVal s => simp [errEntryShapely, hx] at hhd
              | arrVal xs => simp [errEntryShapely, hx] at hhd
      | null => simp [errEntryShapely] at hhd
      | boolVal b => simp [errEntryShapely] at hhd
      | intVal n => simp [errEntryShapely] at hhd
      | strVal s => simp [errEntryShapely] at hhd
      | arrVal xs => simp [errEntryShapely] at hhd

end SyncAirbnb

namespace SyncAirbnb

/-- On a shapely `data` side, the explicit-null fallback check evaluates,
without raising, to the spec's "present but null" condition. -/
lemma fallback_shapely (fields : List (String × Json))
    (h : dataShapely fields = true) :
    fallbackNullCheck (.objVal fields) = .ok (specNullContainer (.objVal fields)) := by
  cases hd : Json.lookupField fields "data" with
  | none =>
      simp [fallbackNullCheck, Json.get, hd, Json.containsStr, Json.lookupField,
        specNullContainer]
  | some d =>
      cases d with
      | objVal dfs =>
          cases hp : Json.lookupField dfs "porygon" with
          | none =>
              simp [fallbackNullCheck, Json.get, hd, Json.containsStr, hp,
                specNullContainer]
          | some pv =>
              cases pv with
              | objVal pfs =>
                  cases hg : Json.lookupField pfs "getPerformanceComponents" with
                  | none =>
                      simp [fallbackNullCheck, Json.get, hd, Json.containsStr, hp,
                        Json.indexStr, specNullContainer, hg]
                  | some gv =>
                      cases gv <;>
                        simp [fallbackNullCheck, Json.get, hd, Json.containsStr, hp,
                          Json.indexStr, specNullContainer, hg, Json.isNull]
              | null => simp [dataShapely, hd, hp] at h
              | boolVal b => simp [dataShapely, hd, hp] at h
              | intVal n => simp [dataShapely, hd, hp] at h
              | strVal s => simp [dataShapely, hd, hp] at h
              | arrVal xs => simp [dataShapely, hd, hp] at h
      | null => simp [dataShapely, hd] at h
      | boolVal b => simp [dataShapely, hd] at h
      | intVal n => simp [dataShapely, hd] at h
      | strVal s => simp [dataShapely, hd] at h
      | arrVal xs => simp [dataShapely, hd] at h

/-- On a list of shapely error entries, the message extraction of the auth
branch cannot raise. -/
lemma authMessage_shapely (es : List Json) (h : es.all errEntryShapely = true) :
    ∃ msg, authMessage (.arrVal es) = .ok msg := by
  cases es with
  | nil => exact ⟨"Please login to continue (credentials expired)", rfl⟩
  | cons e0 rest =>
      rw [List.all_cons, Bool.and_eq_true] at h
      obtain ⟨hhd, -⟩ := h
      cases e0 with
      | objVal efs =>
          cases hm : Json.lookupField efs "message" with
          | none =>
              refine ⟨"Please login to continue (credentials expired)", ?_⟩
              simp [authMessage, Json.truthy, Json.indexZero, Json.get, hm, jsonMsgStr]
          | some mv =>
              refine ⟨jsonMsgStr mv, ?_⟩
              simp [authMessage, Json.truthy, Json.indexZero, Json.get, hm]
      | null => simp [errEntryShapely] at hhd
      | boolVal b => simp [errEntryShapely] at hhd
      | intVal n => simp [errEntryShapely] at hhd
      | strVal s => simp [errEntryShapely] at hhd
      | arrVal xs => simp [errEntryShapely] at hhd

end SyncAirbnb

namespace SyncAirbnb

/-- C7 (amended): on a shapely envelope, `get_first_component` raises
`AirbnbAuthError` exactly when the top-level error list contains an
authentication-required marker or the performance-components container is
explicitly present but null; a merely-absent path returns an empty
component with no error at all (not a StructuralError), and a malformed
extraction path (e.g. an explicitly empty components list) raises the
recoverable structural `ValueError`; no non-auth path ever raises an auth
failure. -/
theorem c7_amended_auth_classification (r : Json) (h : envelopeShapely r = true) :
    isAuthResult (get_first_component r) = (specAuthMarker r || specNullContainer r) ∧
    get_first_component (.objVal []) = .ok (.objVal []) ∧
    isStructuralResult (get_first_component (.objVal [])) = false ∧
    get_first_component (.objVal [("data", .objVal [("porygon", .objVal
        [("getPerformanceComponents", .objVal [("components", .arrVal [])])])])]) =
      .error (.valueError "Could not resolve component structure") := by
  refine ⟨?_, rfl, rfl, rfl⟩
  cases r with
  | objVal fields =>
      simp only [envelopeShapely, Bool.and_eq_true] at h
      obtain ⟨herr, hdata⟩ := h
      have hfb := fallback_shapely fields hdata
      cases he : Json.lookupField fields "errors" with
      | none =>
          have hget : (Json.objVal fields).get "errors" (.arrVal []) = .ok (.arrVal []) := by
            simp [Json.get, he]
          have hmark : specAuthMarker (.objVal fields) = false := by
            simp [specAuthMarker, he]
          simp only [get_first_component, hget, hmark, Bool.false_or]
          simp only [pyIterAuthAny, scanAuthMarker, if_false]
          rw [hfb]
          cases hnc : specNullContainer (.objVal fields) with
          | true =>
              simp [authMessage, Json.truthy, isAuthResult]
          | false =>
              cases hec : extractChain (.objVal fields) with
              | ok c => simp [hec, isAuthResult]
              | error e => simp [hec, isAuthResult]
      | some ev =>
          cases ev with
          | arrVal es =>
              have hall : es.all errEntryShapely = true := by
                simpa [errorsShapely, he] using herr
              have hget : (Json.objVal fields).get "errors" (.arrVal []) =
                  .ok (.arrVal es) := by
                simp [Json.get, he]
              have hscan := scanAuthMarker_shapely es hall
              have hmark : specAuthMarker (.objVal fields) = es.any specMarkerEntry := by
                simp [specAuthMarker, he]
              simp only [get_first_component, hget, hmark]
              simp only [pyIterAuthAny, hscan]
              cases hany : es.any specMarkerEntry with
              | true =>
                  obtain ⟨msg, hmsg⟩ := authMessage_shapely es hall
                  simp [hany, hmsg, isAuthResult]
              | false =>
                  simp only [hany, if_false, Bool.false_or]
                  rw [hfb]
                  cases hnc : specNullContainer (.objVal fields) with
                  | true =>
                      obtain ⟨msg, hmsg⟩ := authMessage_shapely es hall
                      simp [hmsg, isAuthResult]
                  | false =>
                      cases hec : extractChain (.objVal fields) with
                      | ok c => simp [hec, isAuthResult]
                      | error e => simp [hec, isAuthResult]
          | null => simp [errorsShapely, he] at herr
          | boolVal b => simp [errorsShapely, he] at herr
          | intVal n => simp [errorsShapely, he] at herr
          | strVal s => simp [errorsShapely, he] at herr
          | objVal fs => simp [errorsShapely, he] at herr
  | null => simp [envelopeShapely] at h
  | boolVal b => simp [envelopeShapely] at h
  | intVal n => simp [envelopeShapely] at h
  | strVal s => simp [envelopeShapely] at h
  | arrVal xs => simp [envelopeShapely] at h

end SyncAirbnb

namespace SyncAirbnb

/-- C7 counterexample: on the empty envelope `{}` — a missing path that is
not an auth condition — `get_first_component` returns the empty component
`{}` with no error at all, refuting "every other missing or malformed path
yields a recoverable StructuralError". -/
theorem c7_missing_path_no_structural_counterexample :
    get_first_component (.objVal []) = .ok (.objVal []) ∧
    isStructuralResult (get_first_component (.objVal [])) = false ∧
    isAuthResult (get_first_component (.objVal [])) = false :=
  ⟨rfl, rfl, rfl⟩

/-- C7 witness: the classification theorem on a shapely envelope carrying
the authentication-required marker. -/
theorem c7_amended_auth_classification_witness :
    isAuthResult (get_first_component (.objVal [("errors", .arrVal
        [.objVal [("extensions", .objVal
          [("errorType", .strVal "authentication_required")])]])])) =
      (specAuthMarker (.objVal [("errors", .arrVal
        [.objVal [("extensions", .objVal
          [("errorType", .strVal "authentication_required")])]])]) ||
       specNullContainer (.objVal [("errors", .arrVal
        [.objVal [("extensions", .objVal
          [("errorType", .strVal "authentication_required")])]])])) ∧
    get_first_component (.objVal []) = .ok (.objVal []) ∧
    isStructuralResult (get_first_component (.objVal [])) = false ∧
    get_first_component (.objVal [("data", .objVal [("porygon", .objVal
        [("getPerformanceComponents", .objVal [("components", .arrVal [])])])])]) =
      .error (.valueError "Could not resolve component structure") :=
  c7_amended_auth_classification
    (.objVal [("errors", .arrVal
      [.objVal [("extensions", .objVal
        [("errorType", .strVal "authentication_required")])]])])
    (by rfl)

end SyncAirbnb
